import Mathlib

/-!
Shallow embedding of the MQTT2Exist bridge (src/mqtt2exist.py and the older
variant src/mqtt2exit.py): the measurement normalization and update pipeline.

Modelling conventions:
* Python numbers (int/float) are modelled as exact rationals (ℚ).
* JSON values that the scripts inspect are modelled by `PyVal`
  (number, string, or JSON null, which Python's json module decodes to None).
* A payload dictionary is modelled by `Payload`: one `Option PyVal` per key
  the scripts read (`none` = key absent).
* Python exceptions raised by the pipeline are modelled by `Except PyErr`.
* The Python standard library pieces that are external to the repository
  (datetime.fromisoformat / astimezone / strftime, datetime.now,
  datetime.fromtimestamp, float() on strings, json.loads) are injected
  through an environment record `Env`, so every theorem quantifies over them.
* `round(x, 2)` is modelled as exact round-half-to-even on ℚ (`round2`),
  Python's documented rounding mode.
-/

namespace MqttBridge

/-- A JSON scalar value as decoded by Python's `json.loads`:
a number, a string, or JSON `null` (Python `None`). -/
inductive PyVal where
  | num (q : ℚ)
  | str (s : String)
  | null
deriving DecidableEq, Repr

/-- The payload dictionary restricted to the keys both scripts read via
`d.get(...)`: `date`, `timestamp`, `ts`, `unit`, `weight`, `weight_kg`,
`fat`.  `none` models an absent key. -/
structure Payload where
  date : Option PyVal := none
  timestamp : Option PyVal := none
  ts : Option PyVal := none
  unit : Option PyVal := none
  weight : Option PyVal := none
  weight_kg : Option PyVal := none
  fat : Option PyVal := none
deriving DecidableEq, Repr

/-- Python exceptions the two scripts can raise while processing a message. -/
inductive PyErr where
  | valueError (msg : String)
  | typeError (msg : String)
  | runtimeError (msg : String)
deriving DecidableEq, Repr

/-- Equality of `Except` results is decidable, so concrete runs of the
pipeline can be checked by evaluation. -/
instance instDecEqExcept {ε α : Type _} [DecidableEq ε] [DecidableEq α] :
    DecidableEq (Except ε α) := fun a b =>
  match a, b with
  | Except.ok x, Except.ok y =>
      if h : x = y then Decidable.isTrue (by rw [h])
      else Decidable.isFalse (by simp [h])
  | Except.ok _, Except.error _ => Decidable.isFalse (by simp)
  | Except.error _, Except.ok _ => Decidable.isFalse (by simp)
  | Except.error x, Except.error y =>
      if h : x = y then Decidable.isTrue (by rw [h])
      else Decidable.isFalse (by simp [h])

/-- `d.get(k)`: a key bound to JSON null yields Python `None`, exactly like an
absent key, so it is normalized to `none`. -/
def pyGet : Option PyVal → Option PyVal
  | some PyVal.null => none
  | v => v

/-- Python truthiness of the scalar values that occur in payloads:
`None`, `0` and `""` are falsy, everything else truthy. -/
def pyTruthy : PyVal → Bool
  | PyVal.num q => decide (q ≠ 0)
  | PyVal.str s => decide (s ≠ "")
  | PyVal.null => false

/-- Python's `a or b` on optional scalar values: yields `a`'s value when it is
present and truthy, otherwise `b` as is. -/
def pyOr (a b : Option PyVal) : Option PyVal :=
  match a with
  | some v => if pyTruthy v then some v else b
  | none => b

/-- Python's `float(x)` on a payload scalar: numbers pass through, numeric
strings are parsed by the injected `strToFloat` (ValueError on failure),
`None` raises TypeError. -/
def pyFloat (strToFloat : String → Option ℚ) : PyVal → Except PyErr ℚ
  | PyVal.num q => Except.ok q
  | PyVal.str s =>
      match strToFloat s with
      | some q => Except.ok q
      | none => Except.error (PyErr.valueError "could not convert string to float")
  | PyVal.null => Except.error (PyErr.typeError "float() argument must not be None")

/-- Python's `str.lower()` restricted to the ASCII payload strings the
bridge sees, as a character-wise lowercase map. -/
def strLower (s : String) : String := String.mk (s.data.map Char.toLower)

/-- Round half to even at 2 decimal places, Python's `round(x, 2)`
on the exact rational value. -/
def roundHalfEven (q : ℚ) : ℤ :=
  let f : ℤ := ⌊q⌋
  let r : ℚ := q - f
  if r < 1/2 then f
  else if 1/2 < r then f + 1
  else if f % 2 = 0 then f else f + 1

/-- `round(x, 2)` from both scripts. -/
def round2 (q : ℚ) : ℚ := (roundHalfEven (q * 100) : ℚ) / 100

/-- `lb_to_kg` (mqtt2exist.py line 69, mqtt2exit.py line 28):
`float(lb) * 0.45359237`. -/
def lb_to_kg (lb : ℚ) : ℚ := lb * (45359237 / 100000000)

/-- The external collaborators of the pipeline, injected as functions:
the datetime library operations (for the configured reference timezone),
`float()` on strings, and `json.loads`.  Every theorem about the pipeline
quantifies over this record. -/
structure Env where
  nowDate : String
  fromTimestamp : ℚ → String
  isoToDate : String → Option String
  strToFloat : String → Option ℚ
  jsonLoads : String → Except PyErr Payload

/-- Offset-colon normalization from `to_local_date`
(mqtt2exist.py lines 90-92, mqtt2exit.py lines 40-41):
`if len(s) >= 5 and (s[-5] in "+-") and (s[-3] != ":"): s = s[:-2] + ":" + s[-2:]`. -/
def normalizeOffset (s : String) : String :=
  let cs := s.data
  let n := cs.length
  if 5 ≤ n ∧ (cs.getD (n - 5) ' ' = '+' ∨ cs.getD (n - 5) ' ' = '-') ∧
      cs.getD (n - 3) ' ' ≠ ':' then
    String.mk (cs.take (n - 2) ++ ':' :: cs.drop (n - 2))
  else s

/-- `to_local_date` (mqtt2exist.py lines 73-98, mqtt2exit.py lines 31-45):
`None` → today in the local timezone; number → `fromtimestamp`; string →
offset-normalize, then `fromisoformat` + timezone handling + `strftime`
(the whole string branch after normalization is the injected `isoToDate`;
`none` models the ValueError `fromisoformat` raises on malformed input). -/
def to_local_date (env : Env) (date_like : Option PyVal) : Except PyErr String :=
  match date_like with
  | none => Except.ok env.nowDate
  | some PyVal.null => Except.ok env.nowDate
  | some (PyVal.num q) => Except.ok (env.fromTimestamp q)
  | some (PyVal.str s) =>
      match env.isoToDate (normalizeOffset s) with
      | some ds => Except.ok ds
      | none => Except.error (PyErr.valueError "Invalid isoformat string")

/-- The date argument of `to_local_date` in `parse_payload`
(mqtt2exist.py lines 121-123, mqtt2exit.py line 59):
`d.get("date") or d.get("timestamp") or d.get("ts")`. -/
def date_like (d : Payload) : Option PyVal :=
  pyOr (pyGet d.date) (pyOr (pyGet d.timestamp) (pyGet d.ts))

/-- `d.get("weight_kg", d.get("weight"))` followed by normalizing a JSON-null
value to Python `None` (mqtt2exist.py line 126, mqtt2exit.py line 61): the
two-argument `get` returns the stored value, even null, when the key exists. -/
def weight_field (d : Payload) : Option PyVal :=
  pyGet (d.weight_kg <|> pyGet d.weight)

/-- `(d.get("unit") or "kg").lower()` (mqtt2exist.py line 130,
mqtt2exit.py line 64): absent or falsy unit defaults to `"kg"`; a truthy
non-string unit raises (AttributeError on `.lower`, modelled as a TypeError
value since `PyErr` carries only the pipeline-relevant distinctions). -/
def getUnit (u : Option PyVal) : Except PyErr String :=
  match pyGet u with
  | none => Except.ok "kg"
  | some (PyVal.str s) => if s = "" then Except.ok "kg" else Except.ok (strLower s)
  | some (PyVal.num q) =>
      if q = 0 then Except.ok "kg"
      else Except.error (PyErr.typeError "no attribute lower")
  | some PyVal.null => Except.ok "kg"

/-- Weight resolution (mqtt2exist.py lines 130-134, mqtt2exit.py lines 64-65):
compute the unit, coerce the weight with `float`, convert with `lb_to_kg`
unless the unit is `"kg"`.  (mqtt2exit.py writes `lb_to_kg(weight)` without an
outer `float`, but `lb_to_kg` itself applies `float`, so both compute the same
value.) -/
def resolve_weight (strToFloat : String → Option ℚ) (weight : PyVal)
    (unit : Option PyVal) : Except PyErr ℚ := do
  let u ← getUnit unit
  let w ← pyFloat strToFloat weight
  if u = "kg" then pure w else pure (lb_to_kg w)

/-- Fat resolution in mqtt2exist.py (lines 137-143): absent fat is `None`
(not an error); a present fat is coerced with `float`, divided by 100 and
rounded to 2 decimals. -/
def resolve_fat (strToFloat : String → Option ℚ) (fat : Option PyVal) :
    Except PyErr (Option ℚ) :=
  match pyGet fat with
  | none => Except.ok none
  | some v => do
      let f ← pyFloat strToFloat v
      pure (some (round2 (f / 100)))

/-- Fat resolution in mqtt2exit.py (lines 67-69): `fat_pct = d.get("fat")`
then unconditionally `fat_pct = (fat_pct/100)`, so an absent fat raises
TypeError (`None / 100`) and a string fat raises TypeError (`str / 100`)
before the `None`-guard on the next line can run. -/
def resolve_fat_exit (fat : Option PyVal) : Except PyErr ℚ :=
  match pyGet fat with
  | none =>
      Except.error (PyErr.typeError "unsupported operand types for div: NoneType and int")
  | some (PyVal.num q) => Except.ok (q / 100)
  | some (PyVal.str _) =>
      Except.error (PyErr.typeError "unsupported operand types for div: str and int")
  | some PyVal.null =>
      Except.error (PyErr.typeError "unsupported operand types for div: NoneType and int")

/-- `parse_payload` of mqtt2exist.py (lines 101-145) on the already
deserialized dictionary: resolve date, require a weight, resolve unit and
weight, resolve optional fat, return `(date_str, round(weight_kg, 2),
fat_fraction)`. -/
def parse_payload_dict (env : Env) (d : Payload) :
    Except PyErr (String × ℚ × Option ℚ) := do
  let date_str ← to_local_date env (date_like d)
  match weight_field d with
  | none => throw (PyErr.valueError "Payload missing weight or weight_kg")
  | some weight => do
      let weight_kg ← resolve_weight env.strToFloat weight (pyGet d.unit)
      let fat_fraction ← resolve_fat env.strToFloat (pyGet d.fat)
      pure (date_str, round2 weight_kg, fat_fraction)

/-- `parse_payload` of mqtt2exist.py on the raw payload string:
`json.loads` then the dictionary pipeline. -/
def parse_payload (env : Env) (payload : String) :
    Except PyErr (String × ℚ × Option ℚ) := do
  let d ← env.jsonLoads payload
  parse_payload_dict env d

/-- `parse_payload` of mqtt2exit.py (lines 47-71) on the deserialized
dictionary: identical date, weight and unit handling, but the fat branch
divides before checking for `None` (see `resolve_fat_exit`), so the result
always carries a fat value when it succeeds. -/
def parse_payload_exit_dict (env : Env) (d : Payload) :
    Except PyErr (String × ℚ × Option ℚ) := do
  let date_str ← to_local_date env (date_like d)
  match weight_field d with
  | none => throw (PyErr.valueError "Payload missing weight or weight_kg")
  | some weight => do
      let weight_kg ← resolve_weight env.strToFloat weight (pyGet d.unit)
      let fat_pct ← resolve_fat_exit (pyGet d.fat)
      pure (date_str, round2 weight_kg, some (round2 fat_pct))

/-- `parse_payload` of mqtt2exit.py on the raw payload string. -/
def parse_payload_exit (env : Env) (payload : String) :
    Except PyErr (String × ℚ × Option ℚ) := do
  let d ← env.jsonLoads payload
  parse_payload_exit_dict env d

/-- Configuration visible to the posting/startup code: `EXIST_TOKEN`
(`none` models an unset environment variable), and the attribute names
`ATTR_WEIGHT` / `ATTR_FAT`. -/
structure PostCfg where
  existToken : Option String
  attrWeight : String
  attrFat : String
deriving DecidableEq, Repr

/-- Python truthiness of the `EXIST_TOKEN` value (`if not EXIST_TOKEN`):
unset and empty string are falsy. -/
def tokenTruthy : Option String → Bool
  | none => false
  | some s => decide (s ≠ "")

/-- One attribute update record as posted to the Exist API. -/
structure AttributeUpdate where
  name : String
  date : String
  value : ℚ
deriving DecidableEq, Repr

/-- The `updates` list built by `post_exist` (mqtt2exist.py lines 152-157,
mqtt2exit.py lines 76-78): the weight update first, then a fat update only
when a fat fraction is present. -/
def build_updates (cfg : PostCfg) (date_str : String) (weight_kg : ℚ)
    (fat : Option ℚ) : List AttributeUpdate :=
  ⟨cfg.attrWeight, date_str, weight_kg⟩ ::
    match fat with
    | some f => [⟨cfg.attrFat, date_str, f⟩]
    | none => []

/-- `post_exist` of mqtt2exist.py (lines 148-177): require a truthy token,
build the updates, POST them (the HTTP collaborator is the injected `http`,
returning the status code), succeed on 200/202 and raise otherwise.
The returned list is the posted updates. -/
def post_exist (cfg : PostCfg) (http : List AttributeUpdate → Nat)
    (date_str : String) (weight_kg : ℚ) (fat : Option ℚ) :
    Except PyErr (List AttributeUpdate) :=
  if tokenTruthy cfg.existToken = false then
    Except.error (PyErr.runtimeError "EXIST_TOKEN is not set")
  else
    let updates := build_updates cfg date_str weight_kg fat
    let status := http updates
    if status = 200 ∨ status = 202 then Except.ok updates
    else Except.error (PyErr.runtimeError "Exist update failed")

/-- `post_exist` of mqtt2exit.py (lines 73-87): same structure,
different error message. -/
def post_exist_exit (cfg : PostCfg) (http : List AttributeUpdate → Nat)
    (date_str : String) (weight_kg : ℚ) (fat : Option ℚ) :
    Except PyErr (List AttributeUpdate) :=
  if tokenTruthy cfg.existToken = false then
    Except.error (PyErr.runtimeError "Set EXIST_TOKEN")
  else
    let updates := build_updates cfg date_str weight_kg fat
    let status := http updates
    if status = 200 ∨ status = 202 then Except.ok updates
    else Except.error (PyErr.runtimeError "Exist update failed")

/-- The body of the `try` block of `on_message` (mqtt2exist.py lines 194-202):
parse the payload, then post the resulting record. -/
def process_message (env : Env) (cfg : PostCfg)
    (http : List AttributeUpdate → Nat) (raw : String) :
    Except PyErr (List AttributeUpdate) := do
  let r ← parse_payload env raw
  post_exist cfg http r.1 r.2.1 r.2.2

/-- Outcome of handling one message: either the updates were posted, or the
exception was caught by the handler's `except` clause and logged. -/
inductive MsgOutcome where
  | posted (updates : List AttributeUpdate)
  | loggedError (e : PyErr)
deriving DecidableEq, Repr

/-- `on_message` of mqtt2exist.py (lines 190-204): the whole processing of one
message runs inside `try`, and any exception is caught and logged
(`except Exception as e: logging.error(...)`), never re-raised. -/
def on_message (env : Env) (cfg : PostCfg) (http : List AttributeUpdate → Nat)
    (raw : String) : MsgOutcome :=
  match process_message env cfg http raw with
  | Except.ok u => MsgOutcome.posted u
  | Except.error e => MsgOutcome.loggedError e

/-- The subscription loop delivering each received message to `on_message`:
the broker's `loop_forever` driving the registered callback. -/
def run_loop (env : Env) (cfg : PostCfg) (http : List AttributeUpdate → Nat)
    (msgs : List String) : List MsgOutcome :=
  msgs.map (on_message env cfg http)

/-- Startup validation of mqtt2exist.py `main` (lines 209-211): an unset or
empty `EXIST_TOKEN` raises RuntimeError before the broker connection is
attempted. -/
def main_startup (cfg : PostCfg) : Except PyErr Unit :=
  if tokenTruthy cfg.existToken = false then
    Except.error (PyErr.runtimeError "EXIST_TOKEN is not configured")
  else Except.ok ()

/-- Startup validation of mqtt2exit.py `main` (lines 105-114): there is none —
`main` goes straight to the broker connection regardless of `EXIST_TOKEN`. -/
def main_startup_exit (_cfg : PostCfg) : Except PyErr Unit :=
  Except.ok ()

/-- Whether an optional payload value is present and Python-truthy. -/
def optTruthy : Option PyVal → Bool
  | some v => pyTruthy v
  | none => false

/-! ### Concrete fixtures used by witnesses and counterexamples -/

/-- A concrete external environment: a fixed clock, a timestamp formatter that
ignores its argument, an ISO parser that fails exactly on the empty string,
a string-to-float coercion that knows only `"24.22"`, and a `json.loads`
that always fails (message handling fixtures use `envMsg` instead). -/
def env0 : Env where
  nowDate := "2025-11-04"
  fromTimestamp := fun _ => "1970-01-01"
  isoToDate := fun s => if s = "" then none else some (s.take 10)
  strToFloat := fun s => if s = "24.22" then some (2422/100) else none
  jsonLoads := fun _ => Except.error (PyErr.valueError "Expecting value")

/-- Like `env0`, but `json.loads` succeeds on the literal string `"{}"`
(yielding the empty payload) and fails on anything else. -/
def envMsg : Env where
  nowDate := "2025-11-04"
  fromTimestamp := fun _ => "1970-01-01"
  isoToDate := fun s => if s = "" then none else some (s.take 10)
  strToFloat := fun _ => none
  jsonLoads := fun raw =>
    if raw = "{}" then Except.ok {} else Except.error (PyErr.valueError "Expecting value")

/-- A configuration with a set token and the default attribute names. -/
def cfg0 : PostCfg := ⟨some "tok", "weight", "body_fat"⟩

/-- A configuration with `EXIST_TOKEN` unset. -/
def cfgNoTok : PostCfg := ⟨none, "weight", "body_fat"⟩

/-- `{"weight": 80, "fat": 24.22}`. -/
def d8 : Payload := { weight := some (PyVal.num 80), fat := some (PyVal.num (2422/100)) }

/-- `{"weight": 80}`. -/
def dNoFat : Payload := { weight := some (PyVal.num 80) }

/-- `{"weight": 80, "fat": "24.22"}` (fat as a numeric string). -/
def dStrFat : Payload := { weight := some (PyVal.num 80), fat := some (PyVal.str "24.22") }

/-- `{"weight": 100, "unit": "g"}`: a unit that is neither `"kg"` nor a
pound unit. -/
def dUnitG : Payload := { weight := some (PyVal.num 100), unit := some (PyVal.str "g") }

/-- `{"date": "", "ts": 100, "weight": 80}`: a present but falsy `date`
field next to a truthy `ts` field. -/
def dDateFalsy : Payload :=
  { date := some (PyVal.str ""), ts := some (PyVal.num 100), weight := some (PyVal.num 80) }

/-- The empty payload `{}`. -/
def dEmpty : Payload := {}

/-! ### Helper lemmas about the `Except` monad operations -/

theorem bind_ok_eq {ε α β : Type _} (a : α) (f : α → Except ε β) :
    (Except.ok a >>= f : Except ε β) = f a := rfl

theorem bind_error_eq {ε α β : Type _} (e : ε) (f : α → Except ε β) :
    ((Except.error e : Except ε α) >>= f : Except ε β) = Except.error e := rfl

theorem pure_eq_ok {ε α : Type _} (a : α) : (pure a : Except ε α) = Except.ok a := rfl

theorem throw_eq_error {ε α : Type _} (e : ε) :
    (throw e : Except ε α) = Except.error e := rfl

/-! ### Claims -/

/-- C6: the Date Resolver gives the same calendar date for an ISO-8601 string
whose timezone offset lacks the colon separator and for the same string with
the colon: `"2025-11-04T07:11-0500"` and `"2025-11-04T07:11-05:00"` are both
normalized to the latter before the (arbitrary) ISO parser runs, so
`to_local_date` agrees on them in every environment. -/
theorem c6_offset_colon_equiv (env : Env) :
    to_local_date env (some (PyVal.str "2025-11-04T07:11-0500")) =
      to_local_date env (some (PyVal.str "2025-11-04T07:11-05:00")) := by
  have h1 : normalizeOffset "2025-11-04T07:11-0500" = "2025-11-04T07:11-05:00" := by decide
  have h2 : normalizeOffset "2025-11-04T07:11-05:00" = "2025-11-04T07:11-05:00" := by decide
  simp [to_local_date, h1, h2]

/-- C5: a structurally valid payload (its date resolves) with neither
`weight` nor `weight_kg` makes normalization fail with the missing-weight
ValueError in both scripts, and the message handler merely logs that error:
the outcome holds for every HTTP collaborator, so the Attribute Store Client
is never consulted. -/
theorem c5_missing_weight (env : Env) (cfg : PostCfg) (d : Payload)
    (raw ds : String)
    (hjson : env.jsonLoads raw = Except.ok d)
    (hdate : to_local_date env (date_like d) = Except.ok ds)
    (hkg : d.weight_kg = none) (hw : d.weight = none) :
    parse_payload env raw =
      Except.error (PyErr.valueError "Payload missing weight or weight_kg") ∧
    parse_payload_exit_dict env d =
      Except.error (PyErr.valueError "Payload missing weight or weight_kg") ∧
    ∀ http : List AttributeUpdate → Nat,
      on_message env cfg http raw =
        MsgOutcome.loggedError (PyErr.valueError "Payload missing weight or weight_kg") := by
  have hwf : weight_field d = none := by
    simp [weight_field, hkg, hw, pyGet]
  have hp : parse_payload env raw =
      Except.error (PyErr.valueError "Payload missing weight or weight_kg") := by
    simp [parse_payload, hjson, bind_ok_eq, parse_payload_dict, hdate, hwf, throw_eq_error]
  refine ⟨hp, ?_, ?_⟩
  · simp [parse_payload_exit_dict, hdate, bind_ok_eq, hwf, throw_eq_error]
  · intro http
    simp [on_message, process_message, hp, bind_error_eq]

/-- Witness for `c5_missing_weight`: the raw message `"{}"` under `envMsg`. -/
theorem c5_missing_weight_witness :
    parse_payload envMsg "{}" =
      Except.error (PyErr.valueError "Payload missing weight or weight_kg") ∧
    parse_payload_exit_dict envMsg dEmpty =
      Except.error (PyErr.valueError "Payload missing weight or weight_kg") ∧
    ∀ http : List AttributeUpdate → Nat,
      on_message envMsg cfg0 http "{}" =
        MsgOutcome.loggedError (PyErr.valueError "Payload missing weight or weight_kg") :=
  c5_missing_weight envMsg cfg0 dEmpty "{}" "2025-11-04" rfl rfl rfl rfl

/-- C7: any exception from one message's processing (parse failure,
conversion failure, or rejected update) is caught inside `on_message` and
surfaces only as a logged-error outcome, and the subscription loop goes on
to process the remaining messages unchanged. -/
theorem c7_errors_logged (env : Env) (cfg : PostCfg)
    (http : List AttributeUpdate → Nat) (raw : String) (e : PyErr)
    (h : process_message env cfg http raw = Except.error e) :
    on_message env cfg http raw = MsgOutcome.loggedError e ∧
    ∀ rest : List String,
      run_loop env cfg http (raw :: rest) =
        MsgOutcome.loggedError e :: run_loop env cfg http rest := by
  constructor
  · simp [on_message, h]
  · intro rest
    simp [run_loop, on_message, h]

/-- Witness for `c7_errors_logged`: an unparseable raw message under
`envMsg`. -/
theorem c7_errors_logged_witness :
    on_message envMsg cfg0 (fun _ => 200) "not json" =
      MsgOutcome.loggedError (PyErr.valueError "Expecting value") ∧
    ∀ rest : List String,
      run_loop envMsg cfg0 (fun _ => 200) ("not json" :: rest) =
        MsgOutcome.loggedError (PyErr.valueError "Expecting value") ::
          run_loop envMsg cfg0 (fun _ => 200) rest :=
  c7_errors_logged envMsg cfg0 (fun _ => 200) "not json"
    (PyErr.valueError "Expecting value") rfl

/-- C8: when the `fat` field is a number `f` in `[0, 100]` (and the payload
otherwise normalizes), the record's fat fraction is exactly
`round(f / 100, 2)` — the raw percentage is never forwarded unconverted. -/
theorem c8_fat_fraction (env : Env) (d : Payload) (ds : String)
    (wv : PyVal) (wkg f : ℚ)
    (hdate : to_local_date env (date_like d) = Except.ok ds)
    (hw : weight_field d = some wv)
    (hwkg : resolve_weight env.strToFloat wv (pyGet d.unit) = Except.ok wkg)
    (hf : d.fat = some (PyVal.num f)) (_h0 : 0 ≤ f) (_h1 : f ≤ 100) :
    parse_payload_dict env d = Except.ok (ds, round2 wkg, some (round2 (f / 100))) := by
  have hfat : resolve_fat env.strToFloat (pyGet d.fat) = Except.ok (some (round2 (f / 100))) := by
    rw [hf]
    simp [resolve_fat, pyGet, pyFloat, bind_ok_eq, pure_eq_ok]
  simp [parse_payload_dict, hdate, bind_ok_eq, hw, hwkg, hfat, pure_eq_ok]

/-- Witness for `c8_fat_fraction`: `{"weight": 80, "fat": 24.22}` yields a fat
fraction of `0.24`. -/
theorem c8_fat_fraction_witness :
    parse_payload_dict env0 d8 =
      Except.ok ("2025-11-04", round2 80, some (round2 (2422/100 / 100))) ∧
    round2 ((2422 : ℚ)/100 / 100) = 24/100 :=
  ⟨c8_fat_fraction env0 d8 "2025-11-04" (PyVal.num 80) 80 (2422/100)
      rfl rfl rfl rfl (by norm_num) (by norm_num),
    by norm_num [round2, roundHalfEven]⟩

/-- C9: `post_exist` posts the weight update first; a fat update follows
exactly when a fat fraction is present; and every posted update carries the
same resolved date. -/
theorem c9_update_order (cfg : PostCfg) (http : List AttributeUpdate → Nat)
    (ds : String) (w : ℚ) (fat : Option ℚ)
    (ht : tokenTruthy cfg.existToken = true)
    (hs : http (build_updates cfg ds w fat) = 200) :
    ∃ ups, post_exist cfg http ds w fat = Except.ok ups ∧
      ups.head? = some ⟨cfg.attrWeight, ds, w⟩ ∧
      (fat = none → ups = [⟨cfg.attrWeight, ds, w⟩]) ∧
      (∀ f, fat = some f → ups = [⟨cfg.attrWeight, ds, w⟩, ⟨cfg.attrFat, ds, f⟩]) ∧
      ∀ u ∈ ups, u.date = ds := by
  refine ⟨build_updates cfg ds w fat, ?_, ?_, ?_, ?_, ?_⟩
  · simp [post_exist, ht, hs]
  · cases fat <;> simp [build_updates]
  · intro hfat
    simp [build_updates, hfat]
  · intro f hfat
    simp [build_updates, hfat]
  · intro u hu
    cases fat with
    | none => simp [build_updates] at hu; simp [hu]
    | some f =>
        simp [build_updates] at hu
        rcases hu with h | h <;> simp [h]

/-- Witness for `c9_update_order`: posting weight `80` with fat `0.24` under
`cfg0` and an HTTP collaborator answering 200. -/
theorem c9_update_order_witness :
    ∃ ups, post_exist cfg0 (fun _ => 200) "2025-11-04" 80 (some ((24 : ℚ)/100)) =
        Except.ok ups ∧
      ups.head? = some ⟨cfg0.attrWeight, "2025-11-04", 80⟩ ∧
      (some ((24 : ℚ)/100) = none → ups = [⟨cfg0.attrWeight, "2025-11-04", 80⟩]) ∧
      (∀ f, some ((24 : ℚ)/100) = some f →
        ups = [⟨cfg0.attrWeight, "2025-11-04", 80⟩, ⟨cfg0.attrFat, "2025-11-04", f⟩]) ∧
      ∀ u ∈ ups, u.date = "2025-11-04" :=
  c9_update_order cfg0 (fun _ => 200) "2025-11-04" 80 (some ((24 : ℚ)/100)) rfl rfl

/-- C1, counterexample: the claim says any unit other than a pound unit —
here `"g"` — leaves the weight interpreted as kilograms, so
`{"weight": 100, "unit": "g"}` should yield `weight_kg = round(100, 2) = 100`.
The code instead runs the pound converter for every unit other than `"kg"`
and yields `45.36`. -/
theorem c1_unit_counterexample :
    dUnitG.unit = some (PyVal.str "g") ∧
    parse_payload_dict env0 dUnitG = Except.ok ("2025-11-04", 4536/100, none) ∧
    ((4536 : ℚ)/100 ≠ round2 100) := by
  have h0 : parse_payload_dict env0 dUnitG =
      Except.ok ("2025-11-04", round2 (lb_to_kg 100), none) := rfl
  have h2 : round2 (lb_to_kg 100) = 4536/100 := by
    norm_num [round2, roundHalfEven, lb_to_kg]
  exact ⟨rfl, by rw [h0, h2], by norm_num [round2, roundHalfEven]⟩

/-- C1, amended: the Unit Converter runs if and only if the unit value —
defaulted to `"kg"` when the field is absent or falsy, then lowercased — is
not `"kg"`: any other truthy unit string (`"lb"`, but equally `"g"` or
`"stone"`) is treated as pounds; only unit `"kg"` (case-insensitively, or
absent/falsy) leaves the weight as kilograms, rounded to 2 decimals. -/
theorem c1_unit_amended (env : Env) (d : Payload) (ds u : String) (q : ℚ)
    (fr : Option ℚ)
    (hdate : to_local_date env (date_like d) = Except.ok ds)
    (hw : weight_field d = some (PyVal.num q))
    (hu : getUnit (pyGet d.unit) = Except.ok u)
    (hfat : resolve_fat env.strToFloat (pyGet d.fat) = Except.ok fr) :
    parse_payload_dict env d =
      Except.ok (ds, (if u = "kg" then round2 q else round2 (lb_to_kg q)), fr) := by
  have hrw : resolve_weight env.strToFloat (PyVal.num q) (pyGet d.unit) =
      Except.ok (if u = "kg" then q else lb_to_kg q) := by
    simp [resolve_weight, hu, bind_ok_eq, pyFloat, pure_eq_ok]
    split <;> simp
  simp [parse_payload_dict, hdate, bind_ok_eq, hw, hrw, hfat, pure_eq_ok]
  split <;> simp

/-- Witness for `c1_unit_amended`: `{"weight": 80, "fat": 24.22}` with the
unit absent resolves to `"kg"` and the weight stays `80`. -/
theorem c1_unit_amended_witness :
    parse_payload_dict env0 d8 =
      Except.ok ("2025-11-04",
        (if "kg" = "kg" then round2 80 else round2 (lb_to_kg 80)),
        some (round2 (2422/100 / 100))) :=
  c1_unit_amended env0 d8 "2025-11-04" "kg" 80 (some (round2 (2422/100 / 100)))
    rfl rfl rfl rfl

/-- C2: for a structurally valid payload with a weight and no `fat` field,
mqtt2exist.py normalizes successfully with a null fat fraction and exactly one
AttributeUpdate (the weight update) is produced — while mqtt2exit.py, at the
very same payload, raises TypeError by computing `fat_pct/100` before its own
`None` check (the code slip the claim exposes). -/
theorem c2_fat_absent (env : Env) (cfg : PostCfg) (http : List AttributeUpdate → Nat)
    (d : Payload) (ds : String) (wv : PyVal) (wkg : ℚ)
    (hdate : to_local_date env (date_like d) = Except.ok ds)
    (hw : weight_field d = some wv)
    (hwkg : resolve_weight env.strToFloat wv (pyGet d.unit) = Except.ok wkg)
    (hfat : d.fat = none)
    (ht : tokenTruthy cfg.existToken = true)
    (hs : http (build_updates cfg ds (round2 wkg) none) = 200) :
    parse_payload_dict env d = Except.ok (ds, round2 wkg, none) ∧
    post_exist cfg http ds (round2 wkg) none =
      Except.ok [⟨cfg.attrWeight, ds, round2 wkg⟩] ∧
    (build_updates cfg ds (round2 wkg) none).length = 1 ∧
    parse_payload_exit_dict env d =
      Except.error (PyErr.typeError "unsupported operand types for div: NoneType and int") := by
  have hfr : resolve_fat env.strToFloat (pyGet d.fat) = Except.ok none := by
    rw [hfat]
    rfl
  have hfx : resolve_fat_exit (pyGet d.fat) =
      Except.error (PyErr.typeError "unsupported operand types for div: NoneType and int") := by
    rw [hfat]
    rfl
  have hs2 : http [⟨cfg.attrWeight, ds, round2 wkg⟩] = 200 := by
    simpa [build_updates] using hs
  refine ⟨?_, ?_, rfl, ?_⟩
  · simp [parse_payload_dict, hdate, bind_ok_eq, hw, hwkg, hfr, pure_eq_ok]
  · simp [post_exist, ht, hs2, build_updates]
  · simp [parse_payload_exit_dict, hdate, bind_ok_eq, hw, hwkg, hfx, bind_error_eq]

/-- Witness for `c2_fat_absent`: `{"weight": 80}` under `env0` and `cfg0`. -/
theorem c2_fat_absent_witness :
    parse_payload_dict env0 dNoFat = Except.ok ("2025-11-04", round2 80, none) ∧
    post_exist cfg0 (fun _ => 200) "2025-11-04" (round2 80) none =
      Except.ok [⟨cfg0.attrWeight, "2025-11-04", round2 80⟩] ∧
    (build_updates cfg0 "2025-11-04" (round2 80) none).length = 1 ∧
    parse_payload_exit_dict env0 dNoFat =
      Except.error (PyErr.typeError "unsupported operand types for div: NoneType and int") :=
  c2_fat_absent env0 cfg0 (fun _ => 200) dNoFat "2025-11-04" (PyVal.num 80) 80
    rfl rfl rfl rfl rfl rfl

/-- C3: when `EXIST_TOKEN` is unset (or empty), mqtt2exist.py refuses to start
(RuntimeError raised before any broker connection), exactly as claimed — but
mqtt2exit.py performs no startup check at all: it starts normally and only
each message's `post_exist` then fails, the per-message failure mode the
claim rules out. -/
theorem c3_token_startup (cfg : PostCfg)
    (h : tokenTruthy cfg.existToken = false) :
    main_startup cfg = Except.error (PyErr.runtimeError "EXIST_TOKEN is not configured") ∧
    main_startup_exit cfg = Except.ok () ∧
    ∀ (http : List AttributeUpdate → Nat) (ds : String) (w : ℚ) (f : Option ℚ),
      post_exist_exit cfg http ds w f =
        Except.error (PyErr.runtimeError "Set EXIST_TOKEN") := by
  refine ⟨?_, rfl, ?_⟩
  · simp [main_startup, h]
  · intro http ds w f
    simp [post_exist_exit, h]

/-- Witness for `c3_token_startup`: the configuration with no token. -/
theorem c3_token_startup_witness :
    main_startup cfgNoTok =
      Except.error (PyErr.runtimeError "EXIST_TOKEN is not configured") ∧
    main_startup_exit cfgNoTok = Except.ok () ∧
    ∀ (http : List AttributeUpdate → Nat) (ds : String) (w : ℚ) (f : Option ℚ),
      post_exist_exit cfgNoTok http ds w f =
        Except.error (PyErr.runtimeError "Set EXIST_TOKEN") :=
  c3_token_startup cfgNoTok rfl

/-- C4, counterexample: in `{"date": "", "ts": 100, "weight": 80}` the `date`
field is present, so the claim says the resolver runs on it — which would fail,
`""` not being an ISO date.  The code instead skips the falsy `date` and
resolves the `ts` value `100`, succeeding with the epoch-derived date. -/
theorem c4_date_counterexample :
    dDateFalsy.date = some (PyVal.str "") ∧
    to_local_date env0 dDateFalsy.date =
      Except.error (PyErr.valueError "Invalid isoformat string") ∧
    parse_payload_dict env0 dDateFalsy = Except.ok ("1970-01-01", round2 80, none) :=
  ⟨rfl, rfl, rfl⟩

/-- C4, amended: the value handed to the Date Resolver is the first *present
and Python-truthy* of `date`, `timestamp`, `ts` (a present but falsy field,
such as `""` or `0`, is skipped); when neither `date` nor `timestamp` is
truthy it falls back to the `ts` value as is, and the resolver yields "today"
exactly when that final value is absent. -/
theorem c4_date_amended (d : Payload) :
    date_like d =
      (if optTruthy (pyGet d.date) = true then pyGet d.date
       else if optTruthy (pyGet d.timestamp) = true then pyGet d.timestamp
       else pyGet d.ts) ∧
    ∀ env : Env, date_like d = none →
      to_local_date env (date_like d) = Except.ok env.nowDate := by
  constructor
  · cases hd : pyGet d.date with
    | none =>
        cases ht : pyGet d.timestamp with
        | none => simp [date_like, pyOr, hd, ht, optTruthy]
        | some v => by_cases h : pyTruthy v <;> simp [date_like, pyOr, hd, ht, optTruthy, h]
    | some v =>
        by_cases h : pyTruthy v
        · simp [date_like, pyOr, hd, optTruthy, h]
        · cases ht : pyGet d.timestamp with
          | none => simp [date_like, pyOr, hd, ht, optTruthy, h]
          | some w => by_cases h2 : pyTruthy w <;>
              simp [date_like, pyOr, hd, ht, optTruthy, h, h2]
  · intro env hnone
    rw [hnone]
    rfl

/-- Witness for `c4_date_amended`: the empty payload selects no date value and
resolves to "today". -/
theorem c4_date_amended_witness :
    to_local_date env0 (date_like dEmpty) = Except.ok env0.nowDate :=
  (c4_date_amended dEmpty).2 env0 rfl

/-- C10: the two `parse_payload` implementations agree — as complete
functions, errors included — on every payload whose `fat` field is a JSON
number, and diverge outside that domain: with `fat` absent mqtt2exist.py
succeeds (null fraction) where mqtt2exit.py raises TypeError, and with `fat`
a numeric string mqtt2exist.py succeeds where mqtt2exit.py raises TypeError. -/
theorem c10_exit_vs_exist :
    (∀ (env : Env) (d : Payload) (f : ℚ), d.fat = some (PyVal.num f) →
      parse_payload_exit_dict env d = parse_payload_dict env d) ∧
    (parse_payload_dict env0 dNoFat = Except.ok ("2025-11-04", round2 80, none) ∧
     parse_payload_exit_dict env0 dNoFat =
       Except.error (PyErr.typeError "unsupported operand types for div: NoneType and int")) ∧
    (parse_payload_dict env0 dStrFat =
       Except.ok ("2025-11-04", round2 80, some (round2 (2422/100 / 100))) ∧
     parse_payload_exit_dict env0 dStrFat =
       Except.error (PyErr.typeError "unsupported operand types for div: str and int")) := by
  refine ⟨?_, ⟨rfl, rfl⟩, ⟨rfl, rfl⟩⟩
  intro env d f hf
  have hfr : resolve_fat env.strToFloat (pyGet d.fat) =
      Except.ok (some (round2 (f / 100))) := by
    rw [hf]
    simp [resolve_fat, pyGet, pyFloat, bind_ok_eq, pure_eq_ok]
  have hfx : resolve_fat_exit (pyGet d.fat) = Except.ok (f / 100) := by
    rw [hf]
    rfl
  cases hdl : to_local_date env (date_like d) with
  | error e =>
      simp [parse_payload_dict, parse_payload_exit_dict, hdl, bind_error_eq]
  | ok ds =>
      cases hwf : weight_field d with
      | none =>
          simp [parse_payload_dict, parse_payload_exit_dict, hdl, bind_ok_eq, hwf]
      | some wv =>
          cases hrw : resolve_weight env.strToFloat wv (pyGet d.unit) with
          | error e =>
              simp [parse_payload_dict, parse_payload_exit_dict, hdl, bind_ok_eq,
                hwf, hrw, bind_error_eq]
          | ok wkg =>
              simp [parse_payload_dict, parse_payload_exit_dict, hdl, bind_ok_eq,
                hwf, hrw, hfr, hfx, pure_eq_ok]

/-- Witness for `c10_exit_vs_exist`: `{"weight": 80, "fat": 24.22}` gives the
same result through both implementations. -/
theorem c10_exit_vs_exist_witness :
    parse_payload_exit_dict env0 d8 = parse_payload_dict env0 d8 :=
  (c10_exit_vs_exist).1 env0 d8 (2422/100) rfl

end MqttBridge
